import Mathlib

/-!
# Verification of the F1 Tire Degradation & Pit-Strategy Engine

Shallow embedding of the repository's numerical core:

* `kalmanUpdate` — the scalar Kalman predict/update step implemented in
  `src/kalman_addon.cpp` (`UpdateState`) and `src/unnamed/part_004`
  (`TireDegradationFilter::update`).  The C++ code works in IEEE doubles;
  the embedding models its arithmetic exactly over `ℚ`.
* `cliffProbability` — the logistic cliff model of both C++ sources,
  over `ℝ` because it uses `exp`.
* `getMaxLaps`, `isPitStopMandatory`, `getTireWearStatus` — the tire
  strategy helpers from `src/PIT_STOP_FIXES.md` (TireStrategy).
* `determineOptimalPitWindow`, `analyzePitStrategy`,
  `estimatePositionLoss` — from `src/pit_stop_analyzer.js`.
* `decisionEngine` — the mandatory-first decision gate of
  `handleAiDecision` in `src/unnamed/part_003`.

JavaScript numeric helpers `Math.round` and `Math.ceil` are embedded as
`jsRound` and `jsCeil`; `Math.random() - 0.5` is modelled as an explicit
variance parameter.
-/

/-- Mutable state of the scalar Kalman filter: estimate `x` and
covariance `P` (fields `x`, `P` of `TireDegradationFilter`). -/
structure KalmanState where
  x : ℚ
  P : ℚ
deriving DecidableEq, Repr

/-- Immutable configuration of the filter: process noise `Q`, measurement
noise `R`, expected wear per lap (`wear_rate`). -/
structure KalmanConfig where
  Q : ℚ
  R : ℚ
  wearRate : ℚ
deriving DecidableEq, Repr

/-- One predict/update step, exactly as in `UpdateState`
(`src/kalman_addon.cpp`) and `TireDegradationFilter::update`
(`src/unnamed/part_004`):
`x_pred = x + wear_rate`, `P_pred = P + Q`, `K = P_pred / (P_pred + R)`,
`new_x = x_pred + K*(measurement - x_pred)`, `new_P = (1 - K)*P_pred`. -/
def kalmanUpdate (cfg : KalmanConfig) (s : KalmanState) (measurement : ℚ) :
    KalmanState :=
  { x := s.x + cfg.wearRate +
      (s.P + cfg.Q) / (s.P + cfg.Q + cfg.R) *
        (measurement - (s.x + cfg.wearRate))
    P := (1 - (s.P + cfg.Q) / (s.P + cfg.Q + cfg.R)) * (s.P + cfg.Q) }

/-- The Kalman gain computed inside the update step. -/
def kalmanGain (cfg : KalmanConfig) (s : KalmanState) : ℚ :=
  (s.P + cfg.Q) / (s.P + cfg.Q + cfg.R)

/-- Feeding a list of measurements sequentially through the filter
(the loop of `main` in `src/unnamed/part_004`). -/
def kalmanRun (cfg : KalmanConfig) (s : KalmanState) (ms : List ℚ) :
    KalmanState :=
  ms.foldl (kalmanUpdate cfg) s

/-- All intermediate filter states (initial state included), for
properties about every step of a run. -/
def kalmanTrace (cfg : KalmanConfig) (s : KalmanState) (ms : List ℚ) :
    List KalmanState :=
  ms.scanl (kalmanUpdate cfg) s

/-- Logistic cliff model of both C++ sources:
`1 / (1 + exp(-steepness * (x - threshold)))`. -/
noncomputable def cliffProbability (x threshold steepness : ℝ) : ℝ :=
  1 / (1 + Real.exp (-steepness * (x - threshold)))

/-- The configuration the program constructs:
`TireDegradationFilter filter(0.0, 1.0, 0.01, 0.5, 0.05)`. -/
def scenarioConfig : KalmanConfig :=
  { Q := 1/100, R := 1/2, wearRate := 1/20 }

/-- Initial filter state of the program: `x = 0.0`, `P = 1.0`. -/
def scenarioInit : KalmanState :=
  { x := 0, P := 1 }

/-- The simulated noisy telemetry of `main` in `src/unnamed/part_004`. -/
def scenarioMeasurements : List ℚ :=
  [4/100, 12/100, 9/100, 25/100, 18/100, 35/100, 30/100, 55/100, 48/100, 70/100]

/-- Final filter state after the ten measurements of Scenario B. -/
def scenarioBFinal : KalmanState :=
  kalmanRun scenarioConfig scenarioInit scenarioMeasurements

/-- Tire compounds; `UNKNOWN` stands for any key missing from the
`maxLapsMap` of `TireStrategy.getMaxLaps` (`src/PIT_STOP_FIXES.md`). -/
inductive Compound
  | SOFT
  | MEDIUM
  | HARD
  | WET
  | INTERMEDIATE
  | EXTREME_WET
  | UNKNOWN
deriving DecidableEq, Repr

/-- `TireStrategy.getMaxLaps`: the fixed lifetime table, with the
`|| 20` fallback for unrecognized compounds. -/
def getMaxLaps : Compound → ℕ
  | .SOFT => 18
  | .MEDIUM => 28
  | .HARD => 40
  | .WET => 35
  | .INTERMEDIATE => 30
  | .EXTREME_WET => 25
  | .UNKNOWN => 20

/-- `TireStrategy.isPitStopMandatory`:
`lapsCompleted >= maxLaps * 0.99`. -/
def isPitStopMandatory (lapsCompleted : ℕ) (compound : Compound) : Bool :=
  decide ((getMaxLaps compound : ℚ) * (99/100) ≤ (lapsCompleted : ℚ))

/-- Wear status of `TireStrategy.getTireWearStatus`. -/
inductive WearStatus
  | FRESH
  | NORMAL
  | WARNING
  | CRITICAL
  | MANDATORY
deriving DecidableEq, Repr

/-- `TireStrategy.getTireWearStatus`: thresholds on
`percent = lapsCompleted / maxLaps` at 0.5 / 0.75 / 0.85 / 0.95. -/
def getTireWearStatus (lapsCompleted : ℕ) (compound : Compound) : WearStatus :=
  if (lapsCompleted : ℚ) / (getMaxLaps compound : ℚ) < 1/2 then .FRESH
  else if (lapsCompleted : ℚ) / (getMaxLaps compound : ℚ) < 3/4 then .NORMAL
  else if (lapsCompleted : ℚ) / (getMaxLaps compound : ℚ) < 17/20 then .WARNING
  else if (lapsCompleted : ℚ) / (getMaxLaps compound : ℚ) < 19/20 then .CRITICAL
  else .MANDATORY

/-- The four recommendation states of the decision ladder. -/
inductive Recommendation
  | STAY_OUT
  | CONSIDER_PIT
  | PIT_SOON
  | PIT_IMMEDIATELY
deriving DecidableEq, Repr

/-- `PitStopAnalyzer.determineOptimalPitWindow`
(`src/pit_stop_analyzer.js`): the threshold ladder; `currentLap` is in
the source signature but unused by the logic.  Returns the
recommendation of the branch that fires. -/
def determineOptimalPitWindow (currentLap : ℕ) (currentCliffProb : ℚ)
    (lapsSinceLastPit : ℕ) (tireAge : ℕ) (maxTireAge : ℕ) : Recommendation :=
  if (maxTireAge : ℚ) * (95/100) ≤ (tireAge : ℚ) then .PIT_IMMEDIATELY
  else if 75/100 ≤ currentCliffProb then .PIT_IMMEDIATELY
  else if 65/100 ≤ currentCliffProb then .PIT_SOON
  else if 20 < lapsSinceLastPit ∧ 50/100 < currentCliffProb then .CONSIDER_PIT
  else .STAY_OUT

/-- Modelled from the spec: the decision ladder exactly as the spec
states it for non-mandatory ticks —
`cliffProb ≥ 0.75 → PIT_IMMEDIATELY`, `≥ 0.65 → PIT_SOON`,
`lapsSincePit > 20 ∧ cliffProb > 0.50 → CONSIDER_PIT`, else
`STAY_OUT` — with no tire-age rung.  Used to compare the spec ladder
against `determineOptimalPitWindow`. -/
def specLadder (cliffProb : ℚ) (lapsSincePit : ℕ) : Recommendation :=
  if 75/100 ≤ cliffProb then .PIT_IMMEDIATELY
  else if 65/100 ≤ cliffProb then .PIT_SOON
  else if 20 < lapsSincePit ∧ 50/100 < cliffProb then .CONSIDER_PIT
  else .STAY_OUT

/-- Final verdict of one tick: recommendation plus the mandatory flag. -/
structure Decision where
  recommendation : Recommendation
  mandatory : Bool
deriving DecidableEq, Repr

/-- The decision gate of `handleAiDecision` (`src/unnamed/part_003`):
`isPitStopMandatory` is checked first and short-circuits to an
immediate pit before any strategy analysis; otherwise the verdict comes
from the ladder of `determineOptimalPitWindow`. -/
def decisionEngine (lapsSinceLastPit : ℕ) (compound : Compound)
    (cliffProb : ℚ) (currentLap : ℕ) (tireAge : ℕ) (maxTireAge : ℕ) :
    Decision :=
  if isPitStopMandatory lapsSinceLastPit compound then
    { recommendation := .PIT_IMMEDIATELY, mandatory := true }
  else
    { recommendation :=
        determineOptimalPitWindow currentLap cliffProb lapsSinceLastPit
          tireAge maxTireAge
      mandatory := false }

/-- JavaScript `Math.round`: round half toward positive infinity. -/
def jsRound (q : ℚ) : ℤ := ⌊q + 1/2⌋

/-- JavaScript `Math.ceil`. -/
def jsCeil (q : ℚ) : ℤ := ⌈q⌉

/-- Weather condition as produced by the weather analyzer
(`src/unnamed/part_000`). -/
inductive Weather
  | DRY
  | WET
  | INTERMEDIATE
  | EXTREME_WET
deriving DecidableEq, Repr

/-- The `currentState` record consumed by
`PitStopAnalyzer.analyzePitStrategy`; `lap` and `gapToLeader` are
destructured by the source but unused by the scoring logic. -/
structure StrategyInput where
  lap : ℕ
  currentPosition : ℕ
  gapToLeader : ℚ
  cliffProb : ℚ
  fuel : ℚ
  fuelPerLap : ℚ
  weather : Weather
  lapsSincePit : ℕ
  tireAge : ℕ
  maxTireAge : ℕ
deriving DecidableEq, Repr

/-- The tire-age if/elif chain of `analyzePitStrategy`: the value
assigned to `analysis.tireUrgency` before the cliff-probability rules
run.  `tireAgePercent = tireAge / maxTireAge`. -/
def tireAgeScore (i : StrategyInput) : ℤ :=
  if 19/20 ≤ (i.tireAge : ℚ) / (i.maxTireAge : ℚ) then 10
  else if 17/20 ≤ (i.tireAge : ℚ) / (i.maxTireAge : ℚ) then 9
  else if 3/4 ≤ (i.tireAge : ℚ) / (i.maxTireAge : ℚ) then 7
  else if 3/5 ≤ (i.tireAge : ℚ) / (i.maxTireAge : ℚ) then 4
  else jsRound (i.cliffProb * 5)

/-- `analysis.tireUrgency` after the cliff-probability block of
`analyzePitStrategy`, which takes `Math.max` of the age-based value
with 10 / 7 / 4 when `cliffProb` exceeds 0.75 / 0.65 / 0.50. -/
def tireUrgency (i : StrategyInput) : ℤ :=
  if 3/4 < i.cliffProb then max (tireAgeScore i) 10
  else if 13/20 < i.cliffProb then max (tireAgeScore i) 7
  else if 1/2 < i.cliffProb then max (tireAgeScore i) 4
  else tireAgeScore i

/-- `analysis.fuelUrgency` of `analyzePitStrategy`:
`lapsRemaining = Math.ceil(fuel / fuelPerLap)`, then 10 / 6 / 1. -/
def fuelUrgency (i : StrategyInput) : ℤ :=
  if jsCeil (i.fuel / i.fuelPerLap) < 5 then 10
  else if jsCeil (i.fuel / i.fuelPerLap) < 10 then 6
  else 1

/-- `analysis.strategyUrgency` of `analyzePitStrategy`. -/
def strategyUrgency (i : StrategyInput) : ℤ :=
  if 10 < i.currentPosition ∧ 1/2 < i.cliffProb ∧ 15 < i.lapsSincePit then 6
  else if i.weather = .WET ∨ i.weather = .INTERMEDIATE then 5
  else 1

/-- `totalUrgency` of `analyzePitStrategy`:
`Math.round((tireUrgency*1.5 + fuelUrgency + strategyUrgency) / 3.5)`. -/
def totalUrgency (i : StrategyInput) : ℤ :=
  jsRound (((tireUrgency i : ℚ) * (3/2) + (fuelUrgency i : ℚ) +
    (strategyUrgency i : ℚ)) / (7/2))

/-- Max of a list of sub-score rule values (0 when no rule fires). -/
def maxOfRules (l : List ℤ) : ℤ := l.foldl max 0

/-- Modelled from the spec: the tire-urgency rule set of §4.4, each
entry present exactly when its rule triggers —
`ageRatio ≥ 0.95 → 10`, `≥ 0.85 → 9`, `≥ 0.75 → 7`, `≥ 0.60 → 4`,
else `round(cliffProb*5)`; additionally `cliffProb > 0.75 → 10`,
`> 0.65 → 7`, `> 0.50 → 4`. -/
def tireRuleValues (i : StrategyInput) : List ℤ :=
  (if 19/20 ≤ (i.tireAge : ℚ) / (i.maxTireAge : ℚ) then [10] else []) ++
  (if 17/20 ≤ (i.tireAge : ℚ) / (i.maxTireAge : ℚ) then [9] else []) ++
  (if 3/4 ≤ (i.tireAge : ℚ) / (i.maxTireAge : ℚ) then [7] else []) ++
  (if 3/5 ≤ (i.tireAge : ℚ) / (i.maxTireAge : ℚ) then [4] else []) ++
  (if (i.tireAge : ℚ) / (i.maxTireAge : ℚ) < 3/5 then [jsRound (i.cliffProb * 5)] else []) ++
  (if 3/4 < i.cliffProb then [10] else []) ++
  (if 13/20 < i.cliffProb then [7] else []) ++
  (if 1/2 < i.cliffProb then [4] else [])

/-- Modelled from the spec: the fuel-urgency rule set of §4.4 —
`lapsRemaining < 5 → 10`, `< 10 → 6`, otherwise `1`. -/
def fuelRuleValues (i : StrategyInput) : List ℤ :=
  (if jsCeil (i.fuel / i.fuelPerLap) < 5 then [10] else []) ++
  (if jsCeil (i.fuel / i.fuelPerLap) < 10 then [6] else []) ++
  (if 10 ≤ jsCeil (i.fuel / i.fuelPerLap) then [1] else [])

/-- Modelled from the spec: the strategy-urgency rule set of §4.4 —
`position > 10 ∧ cliffProb > 0.50 ∧ lapsSincePit > 15 → 6`, weather
wet or intermediate `→ 5`, otherwise `1`. -/
def strategyRuleValues (i : StrategyInput) : List ℤ :=
  (if 10 < i.currentPosition ∧ 1/2 < i.cliffProb ∧ 15 < i.lapsSincePit then [6] else []) ++
  (if i.weather = .WET ∨ i.weather = .INTERMEDIATE then [5] else []) ++
  (if ¬(10 < i.currentPosition ∧ 1/2 < i.cliffProb ∧ 15 < i.lapsSincePit) ∧
      ¬(i.weather = .WET ∨ i.weather = .INTERMEDIATE) then [1] else [])

/-- Result record of `PitStopAnalyzer.estimatePositionLoss`. -/
structure PitImpact where
  timeLossSeconds : ℚ
  positionsLost : ℤ
  newPosition : ℤ
deriving DecidableEq, Repr

/-- `spreadFactor = 1 - (lap / raceLength) * 0.5` of
`estimatePositionLoss`. -/
def spreadFactor (lap raceLength : ℕ) : ℚ :=
  1 - (lap : ℚ) / (raceLength : ℚ) * (1/2)

/-- The rational value rounded by `estimatePositionLoss`
(`src/pit_stop_analyzer.js`):
`positionsLost = Math.ceil(24 / (190 * 0.15)) * spreadFactor`, capped
into `[1, currentPosition - 1]`, then variance `v` (the source's
`(Math.random() - 0.5) * 1`, modelled as an explicit parameter) is
added and the result floored at 1 again. -/
def positionsLostQ (currentPosition lap raceLength : ℕ) (v : ℚ) : ℚ :=
  max 1
    (max 1
      (min ((jsCeil ((24 : ℚ) / (190 * (15/100))) : ℚ) * spreadFactor lap raceLength)
        ((currentPosition : ℚ) - 1)) + v)

/-- `PitStopAnalyzer.estimatePositionLoss`: time loss is the fixed
`pitStopDuration = 24`, `positionsLost = Math.round(...)`,
`newPosition = currentPosition + Math.round(...)` (uncapped). -/
def estimatePositionLoss (currentPosition lap raceLength : ℕ) (v : ℚ) :
    PitImpact :=
  { timeLossSeconds := 24
    positionsLost := jsRound (positionsLostQ currentPosition lap raceLength v)
    newPosition :=
      (currentPosition : ℤ) + jsRound (positionsLostQ currentPosition lap raceLength v) }

/-- The filter-error taxonomy of the spec (§7). -/
inductive FilterError
  | DegenerateFilterError
deriving DecidableEq, Repr

/-- Modelled from the spec: the checked update of §4.1, which fails
with `DegenerateFilterError` when the combined variance
`P_pred + R = (P + Q) + R` is not strictly positive, instead of
dividing; no such check exists in `src/kalman_addon.cpp` or
`src/unnamed/part_004`. -/
def kalmanUpdateChecked (cfg : KalmanConfig) (s : KalmanState)
    (measurement : ℚ) : Except FilterError KalmanState :=
  if s.P + cfg.Q + cfg.R ≤ 0 then .error .DegenerateFilterError
  else .ok (kalmanUpdate cfg s measurement)

/-! ## Helper lemmas -/

lemma one_add_exp_pos (t : ℝ) : 0 < 1 + Real.exp t := by positivity

lemma cliffProbability_pos (x threshold steepness : ℝ) :
    0 < cliffProbability x threshold steepness := by
  rw [cliffProbability]; positivity

lemma cliffProbability_lt_one (x threshold steepness : ℝ) :
    cliffProbability x threshold steepness < 1 := by
  rw [cliffProbability, div_lt_one (one_add_exp_pos _)]
  linarith [Real.exp_pos (-steepness * (x - threshold))]

lemma cliffProbability_eq_half (threshold steepness : ℝ) :
    cliffProbability threshold threshold steepness = 1/2 := by
  rw [cliffProbability, sub_self, mul_zero, Real.exp_zero]
  norm_num

lemma cliffProbability_strictMono (threshold steepness : ℝ)
    (hs : 0 < steepness) :
    StrictMono (fun x => cliffProbability x threshold steepness) := by
  intro a b hab
  simp only [cliffProbability]
  have he : Real.exp (-steepness * (b - threshold)) <
      Real.exp (-steepness * (a - threshold)) :=
    Real.exp_lt_exp.mpr (by nlinarith)
  exact one_div_lt_one_div_of_lt (one_add_exp_pos _) (by linarith)

lemma cliffProbability_lt_half {x threshold steepness : ℝ}
    (hs : 0 < steepness) (hx : x < threshold) :
    cliffProbability x threshold steepness < 1/2 := by
  have h1 : 1 < Real.exp (-steepness * (x - threshold)) :=
    Real.one_lt_exp_iff.mpr (by nlinarith)
  rw [cliffProbability]
  exact one_div_lt_one_div_of_lt (by norm_num) (by linarith)

lemma half_lt_cliffProbability {x threshold steepness : ℝ}
    (hs : 0 < steepness) (hx : threshold < x) :
    1/2 < cliffProbability x threshold steepness := by
  have h1 : Real.exp (-steepness * (x - threshold)) < 1 :=
    Real.exp_lt_one_iff.mpr (by nlinarith)
  rw [cliffProbability]
  exact one_div_lt_one_div_of_lt (one_add_exp_pos _) (by linarith)

lemma le_jsRound {n : ℤ} {q : ℚ} (h : (n : ℚ) - 1/2 ≤ q) : n ≤ jsRound q :=
  Int.le_floor.mpr (by push_cast; linarith)

lemma jsRound_le {n : ℤ} {q : ℚ} (h : q < (n : ℚ) + 1/2) : jsRound q ≤ n := by
  have := Int.floor_lt.mpr (show q + 1/2 < ((n + 1 : ℤ) : ℚ) by push_cast; linarith)
  rw [jsRound]
  omega

lemma jsRound_mono {a b : ℚ} (h : a ≤ b) : jsRound a ≤ jsRound b :=
  Int.floor_le_floor (by linarith)

lemma jsRound_one : jsRound 1 = 1 := by
  rw [jsRound, Int.floor_eq_iff] <;> norm_num

/-! ## Claim theorems -/

/-- C7: for fixed threshold and fixed steepness > 0, the cliff
probability `1/(1 + exp(-steepness*(x - threshold)))` is strictly
increasing in `x`, lies strictly inside `(0,1)` for every `x`, and
equals exactly `0.5` when `x` equals the threshold. -/
theorem cliffProbability_shape (threshold steepness : ℝ)
    (hs : 0 < steepness) :
    StrictMono (fun x => cliffProbability x threshold steepness) ∧
    (∀ x, 0 < cliffProbability x threshold steepness ∧
      cliffProbability x threshold steepness < 1) ∧
    cliffProbability threshold threshold steepness = 1/2 :=
  ⟨cliffProbability_strictMono threshold steepness hs,
   fun x => ⟨cliffProbability_pos x threshold steepness,
     cliffProbability_lt_one x threshold steepness⟩,
   cliffProbability_eq_half threshold steepness⟩

/-- Witness for C7 at the program's configuration
(threshold 0.60, steepness 15). -/
theorem cliffProbability_shape_witness :
    (0 : ℝ) < 15 ∧
    (StrictMono (fun x => cliffProbability x (3/5) 15) ∧
      (∀ x, 0 < cliffProbability x (3/5) 15 ∧
        cliffProbability x (3/5) 15 < 1) ∧
      cliffProbability (3/5) (3/5) 15 = 1/2) :=
  ⟨by norm_num, cliffProbability_shape (3/5) 15 (by norm_num)⟩

/-- C1 counterexample: feeding the ten measurements of Scenario B
through the filter of `src/unnamed/part_004` yields a final smoothed
estimate of 0.5444…, which is NOT greater than 0.55, and a final cliff
probability of about 0.303, which is NOT greater than 0.5; the claim
fails at its own concrete input. -/
theorem scenarioB_claim_counterexample :
    ¬(11/20 < scenarioBFinal.x ∧
      1/2 < cliffProbability (scenarioBFinal.x : ℝ) (3/5) 15) := by
  have hx : scenarioBFinal.x < 11/20 := by
    norm_num [scenarioBFinal, kalmanRun, scenarioMeasurements, List.foldl,
      kalmanUpdate, scenarioConfig, scenarioInit]
  rintro ⟨h1, -⟩
  exact absurd h1 (lt_asymm hx)

/-- C1 amended: the ten Scenario B measurements yield a final smoothed
estimate strictly greater than 0.54 (but below 0.55) and a final cliff
probability strictly below 0.5 — the filter converges toward the rising
signal but does not cross the claimed thresholds. -/
theorem scenarioB_amended :
    27/50 < scenarioBFinal.x ∧ scenarioBFinal.x < 11/20 ∧
    cliffProbability (scenarioBFinal.x : ℝ) (3/5) 15 < 1/2 := by
  have h1 : 27/50 < scenarioBFinal.x := by
    norm_num [scenarioBFinal, kalmanRun, scenarioMeasurements, List.foldl,
      kalmanUpdate, scenarioConfig, scenarioInit]
  have h2 : scenarioBFinal.x < 11/20 := by
    norm_num [scenarioBFinal, kalmanRun, scenarioMeasurements, List.foldl,
      kalmanUpdate, scenarioConfig, scenarioInit]
  have h3 : (scenarioBFinal.x : ℝ) < 3/5 := by
    have hq : scenarioBFinal.x < 3/5 := by linarith
    have hc : ((scenarioBFinal.x : ℝ)) < ((3/5 : ℚ) : ℝ) := Rat.cast_lt.mpr hq
    norm_num at hc
    exact hc
  exact ⟨h1, h2, cliffProbability_lt_half (by norm_num) h3⟩

/-- C5 counterexample: feeding measurement 0.04 to the freshly
constructed filter gives estimate 327/7550 = 0.04331…, which is not
approximately 0.0417 (it misses by more than 0.0005, the half-width of
the last quoted digit's decade); the claim's first figure is wrong. -/
theorem scenarioA_claim_counterexample :
    ¬(|(kalmanUpdate scenarioConfig scenarioInit (1/25)).x - 417/10000| ≤ 1/2000 ∧
      |kalmanGain scenarioConfig scenarioInit - 67/100| ≤ 1/200 ∧
      cliffProbability ((kalmanUpdate scenarioConfig scenarioInit (1/25)).x : ℝ)
        (3/5) 15 < 1/2) := by
  rintro ⟨h1, -, -⟩
  rw [abs_le] at h1
  obtain ⟨-, h1b⟩ := h1
  norm_num [kalmanUpdate, scenarioConfig, scenarioInit] at h1b

/-- C5 amended: the single update from the fresh filter returns an
estimate of approximately 0.0433 (exactly 327/7550), with Kalman gain
approximately 0.67 (exactly 101/151), and the resulting cliff
probability is below 0.5 (the estimate is far below the 0.60
threshold). -/
theorem scenarioA_amended :
    |(kalmanUpdate scenarioConfig scenarioInit (1/25)).x - 433/10000| ≤ 1/2000 ∧
    |kalmanGain scenarioConfig scenarioInit - 67/100| ≤ 1/200 ∧
    cliffProbability ((kalmanUpdate scenarioConfig scenarioInit (1/25)).x : ℝ)
      (3/5) 15 < 1/2 := by
  refine ⟨?_, ?_, ?_⟩
  · rw [abs_le]
    constructor <;>
      norm_num [kalmanUpdate, scenarioConfig, scenarioInit]
  · rw [abs_le]
    constructor <;>
      norm_num [kalmanGain, scenarioConfig, scenarioInit]
  · have hq : (kalmanUpdate scenarioConfig scenarioInit (1/25)).x < 3/5 := by
      norm_num [kalmanUpdate, scenarioConfig, scenarioInit]
    have hc : (((kalmanUpdate scenarioConfig scenarioInit (1/25)).x : ℝ)) <
        ((3/5 : ℚ) : ℝ) := Rat.cast_lt.mpr hq
    norm_num at hc
    exact cliffProbability_lt_half (by norm_num) hc

/-- C2: `isPitStopMandatory` is true iff `lapsOnTire / maxLaps ≥ 0.99`;
whenever it is true the wear status is `MANDATORY`, and the decision
gate — mandatory check first — returns `PIT_IMMEDIATELY` with
`mandatory = true` for every cliff probability, even 0. -/
theorem mandatory_pit_spec (lapsOnTire : ℕ) (compound : Compound) :
    (isPitStopMandatory lapsOnTire compound = true ↔
      99/100 ≤ (lapsOnTire : ℚ) / (getMaxLaps compound : ℚ)) ∧
    (isPitStopMandatory lapsOnTire compound = true →
      getTireWearStatus lapsOnTire compound = .MANDATORY) ∧
    (∀ (cliffProb : ℚ) (currentLap tireAge maxTireAge : ℕ),
      isPitStopMandatory lapsOnTire compound = true →
      decisionEngine lapsOnTire compound cliffProb currentLap tireAge maxTireAge =
        { recommendation := .PIT_IMMEDIATELY, mandatory := true }) := by
  have hM : (0 : ℚ) < (getMaxLaps compound : ℚ) := by
    cases compound <;> norm_num [getMaxLaps]
  have hiff : isPitStopMandatory lapsOnTire compound = true ↔
      99/100 ≤ (lapsOnTire : ℚ) / (getMaxLaps compound : ℚ) := by
    rw [isPitStopMandatory, decide_eq_true_iff, le_div_iff hM, mul_comm]
  refine ⟨hiff, ?_, ?_⟩
  · intro h
    have hp : 99/100 ≤ (lapsOnTire : ℚ) / (getMaxLaps compound : ℚ) := hiff.mp h
    rw [getTireWearStatus, if_neg (by linarith), if_neg (by linarith),
      if_neg (by linarith), if_neg (by linarith)]
  · intro cliffProb currentLap tireAge maxTireAge h
    rw [decisionEngine, if_pos h]

/-- Witness for C2 at `lapsOnTire = 18`, compound `SOFT` (max 18 laps,
ratio 1.0 ≥ 0.99) and cliff probability 0. -/
theorem mandatory_pit_spec_witness :
    isPitStopMandatory 18 .SOFT = true ∧
    getTireWearStatus 18 .SOFT = .MANDATORY ∧
    decisionEngine 18 .SOFT 0 1 18 18 =
      { recommendation := .PIT_IMMEDIATELY, mandatory := true } := by
  have h := mandatory_pit_spec 18 .SOFT
  have hm : isPitStopMandatory 18 .SOFT = true :=
    h.1.mpr (by norm_num [getMaxLaps])
  exact ⟨hm, h.2.1 hm, h.2.2 0 1 18 18 hm⟩

/-- C3 counterexample: at tire age 24 on a 25-lap compound
(`EXTREME_WET`), the mandatory condition is false (24 < 24.75), yet
`determineOptimalPitWindow` returns `PIT_IMMEDIATELY` from its own
tire-age rung (24 ≥ 23.75) where the claimed ladder — which has no such
rung — returns `STAY_OUT` for cliffProb 0.30 and 5 laps since the pit. -/
theorem ladder_claim_counterexample :
    isPitStopMandatory 24 .EXTREME_WET = false ∧
    determineOptimalPitWindow 1 (3/10) 5 24 25 = .PIT_IMMEDIATELY ∧
    specLadder (3/10) 5 = .STAY_OUT := by
  refine ⟨?_, ?_, ?_⟩
  · rw [isPitStopMandatory, decide_eq_false_iff_not]
    norm_num [getMaxLaps]
  · rw [determineOptimalPitWindow, if_pos (by norm_num)]
  · rw [specLadder, if_neg (by norm_num), if_neg (by norm_num),
      if_neg (by norm_num)]

/-- C3 amended: whenever the ladder's own tire-age-critical rung
(`tireAge ≥ 0.95 * maxTireAge`) does not fire, the ladder returns
exactly the claimed chain (PIT_IMMEDIATELY at cliffProb ≥ 0.75, PIT_SOON
at ≥ 0.65, CONSIDER_PIT at lapsSincePit > 20 and cliffProb > 0.50, else
STAY_OUT); and at cliffProb = 0.80 the recommendation is
PIT_IMMEDIATELY regardless of tire age, laps since pit or urgency. -/
theorem ladder_amended :
    (∀ (currentLap lapsSincePit tireAge maxTireAge : ℕ) (cliffProb : ℚ),
      (tireAge : ℚ) < (maxTireAge : ℚ) * (95/100) →
      determineOptimalPitWindow currentLap cliffProb lapsSincePit tireAge
        maxTireAge = specLadder cliffProb lapsSincePit) ∧
    (∀ (currentLap lapsSincePit tireAge maxTireAge : ℕ),
      determineOptimalPitWindow currentLap (4/5) lapsSincePit tireAge
        maxTireAge = .PIT_IMMEDIATELY) := by
  constructor
  · intro currentLap lapsSincePit tireAge maxTireAge cliffProb h
    rw [determineOptimalPitWindow, if_neg (not_le.mpr h), specLadder]
  · intro currentLap lapsSincePit tireAge maxTireAge
    by_cases h : (maxTireAge : ℚ) * (95/100) ≤ (tireAge : ℚ)
    · rw [determineOptimalPitWindow, if_pos h]
    · rw [determineOptimalPitWindow, if_neg h, if_pos (by norm_num)]

/-- Witness for C3 amended: tire age 0 of 25 (rung does not fire), cliff
probability 0.70 matches the spec ladder; cliff probability 0.80 pits
immediately. -/
theorem ladder_amended_witness :
    ((0 : ℚ) < (25 : ℚ) * (95/100)) ∧
    determineOptimalPitWindow 1 (7/10) 21 0 25 = specLadder (7/10) 21 ∧
    determineOptimalPitWindow 1 (4/5) 0 0 25 = .PIT_IMMEDIATELY :=
  ⟨by norm_num,
   ladder_amended.1 1 21 0 25 (7/10) (by norm_num),
   ladder_amended.2 1 0 0 25⟩

/-- C4 counterexample: with `P = Q = R = 0` the combined variance
`P_pred + R` is 0, the spec-modelled checked update fails with
`DegenerateFilterError`, but the code's update performs the division
unconditionally and returns a normal result — the claimed failure never
happens in the code. -/
theorem degenerate_check_counterexample :
    Except.ok (kalmanUpdate ⟨0, 0, 0⟩ ⟨0, 0⟩ 1) ≠
      kalmanUpdateChecked ⟨0, 0, 0⟩ ⟨0, 0⟩ 1 := by
  rw [kalmanUpdateChecked, if_pos (by norm_num)]
  simp

/-- C4 amended: the code contains no degeneracy check and never fails;
however, for every state with `P ≥ 0` and configuration with `Q ≥ 0`,
`R > 0` (which covers every configuration the program constructs), the
combined variance is strictly positive, no division by a non-positive
denominator occurs, and the spec's checked update agrees with the
code's unchecked one. -/
theorem degenerate_check_amended (cfg : KalmanConfig) (s : KalmanState)
    (m : ℚ) (hP : 0 ≤ s.P) (hQ : 0 ≤ cfg.Q) (hR : 0 < cfg.R) :
    0 < s.P + cfg.Q + cfg.R ∧
    kalmanUpdateChecked cfg s m = .ok (kalmanUpdate cfg s m) := by
  have h : 0 < s.P + cfg.Q + cfg.R := by linarith
  exact ⟨h, by rw [kalmanUpdateChecked, if_neg (not_le.mpr h)]⟩

/-- Witness for C4 amended at the program's configuration
`(P=1, Q=0.01, R=0.5)` and measurement 0.04. -/
theorem degenerate_check_amended_witness :
    (0 ≤ scenarioInit.P ∧ 0 ≤ scenarioConfig.Q ∧ 0 < scenarioConfig.R) ∧
    (0 < scenarioInit.P + scenarioConfig.Q + scenarioConfig.R ∧
      kalmanUpdateChecked scenarioConfig scenarioInit (1/25) =
        .ok (kalmanUpdate scenarioConfig scenarioInit (1/25))) :=
  ⟨⟨by norm_num [scenarioInit], by norm_num [scenarioConfig],
    by norm_num [scenarioConfig]⟩,
   degenerate_check_amended scenarioConfig scenarioInit (1/25)
     (by norm_num [scenarioInit]) (by norm_num [scenarioConfig])
     (by norm_num [scenarioConfig])⟩

lemma kalmanTrace_cons (cfg : KalmanConfig) (s : KalmanState) (m : ℚ)
    (ms : List ℚ) :
    kalmanTrace cfg s (m :: ms) =
      s :: kalmanTrace cfg (kalmanUpdate cfg s m) ms := by
  simp [kalmanTrace, List.scanl_cons]

lemma kalmanTrace_shape (cfg : KalmanConfig) (s : KalmanState)
    (ms : List ℚ) :
    ∃ rest, kalmanTrace cfg s ms = s :: rest := by
  cases ms with
  | nil => exact ⟨[], by simp [kalmanTrace]⟩
  | cons m ms => exact ⟨_, kalmanTrace_cons cfg s m ms⟩

lemma kalmanUpdate_P_nonneg (cfg : KalmanConfig) (s : KalmanState) (m : ℚ)
    (hP : 0 ≤ s.P) (hQ : 0 ≤ cfg.Q) (hR : 0 ≤ cfg.R) :
    0 ≤ (kalmanUpdate cfg s m).P := by
  show 0 ≤ (1 - (s.P + cfg.Q) / (s.P + cfg.Q + cfg.R)) * (s.P + cfg.Q)
  have ha : 0 ≤ s.P + cfg.Q := by linarith
  by_cases h : s.P + cfg.Q + cfg.R = 0
  · have haz : s.P + cfg.Q = 0 := by linarith
    rw [haz]
    simp
  · have hpos : 0 < s.P + cfg.Q + cfg.R :=
      lt_of_le_of_ne (by linarith) (Ne.symm h)
    have h1 : 1 - (s.P + cfg.Q) / (s.P + cfg.Q + cfg.R) =
        cfg.R / (s.P + cfg.Q + cfg.R) := by
      field_simp
    rw [h1]
    exact mul_nonneg (div_nonneg hR hpos.le) ha

lemma kalmanUpdate_P_le (cfg : KalmanConfig) (s : KalmanState) (m : ℚ)
    (hP : 0 ≤ s.P) (hQ : cfg.Q = 0) (hR : 0 ≤ cfg.R) :
    (kalmanUpdate cfg s m).P ≤ s.P := by
  show (1 - (s.P + cfg.Q) / (s.P + cfg.Q + cfg.R)) * (s.P + cfg.Q) ≤ s.P
  rw [hQ, add_zero]
  by_cases h : s.P + cfg.R = 0
  · have hpz : s.P = 0 := by linarith
    simp [hpz]
  · have hpos : 0 < s.P + cfg.R :=
      lt_of_le_of_ne (by linarith) (Ne.symm h)
    have h1 : 1 - s.P / (s.P + cfg.R) = cfg.R / (s.P + cfg.R) := by
      field_simp
    rw [h1, div_mul_eq_mul_div, div_le_iff hpos]
    nlinarith [sq_nonneg s.P]

/-- C8: starting from covariance `P ≥ 0` with `Q ≥ 0` and `R ≥ 0`, the
covariance is non-negative after every update of a measurement
sequence, and with `Q = 0` the covariance sequence is monotonically
non-increasing. -/
theorem covariance_invariant (cfg : KalmanConfig) (s : KalmanState)
    (ms : List ℚ) (hP : 0 ≤ s.P) (hQ : 0 ≤ cfg.Q) (hR : 0 ≤ cfg.R) :
    (∀ t ∈ kalmanTrace cfg s ms, 0 ≤ t.P) ∧
    (cfg.Q = 0 →
      (kalmanTrace cfg s ms).Chain' (fun a b => b.P ≤ a.P)) := by
  induction ms generalizing s with
  | nil =>
    refine ⟨?_, ?_⟩
    · intro t ht
      simp [kalmanTrace] at ht
      rw [ht]
      exact hP
    · intro _
      simp [kalmanTrace]
  | cons m ms ih =>
    have hP1 : 0 ≤ (kalmanUpdate cfg s m).P :=
      kalmanUpdate_P_nonneg cfg s m hP hQ hR
    obtain ⟨ih1, ih2⟩ := ih (kalmanUpdate cfg s m) hP1
    constructor
    · intro t ht
      rw [kalmanTrace_cons] at ht
      rcases List.mem_cons.mp ht with h | h
      · rw [h]; exact hP
      · exact ih1 t h
    · intro hQ0
      obtain ⟨rest, hr⟩ := kalmanTrace_shape cfg (kalmanUpdate cfg s m) ms
      rw [kalmanTrace_cons, hr]
      refine List.chain'_cons.mpr ⟨?_, hr ▸ ih2 hQ0⟩
      exact kalmanUpdate_P_le cfg s m hP hQ0 hR

/-- Witness for C8 with `Q = 0` at the program's other constants and
two measurements. -/
theorem covariance_invariant_witness :
    ((0 : ℚ) ≤ (⟨0, 1⟩ : KalmanState).P ∧
      (0 : ℚ) ≤ (⟨0, 1/2, 1/20⟩ : KalmanConfig).Q ∧
      (0 : ℚ) ≤ (⟨0, 1/2, 1/20⟩ : KalmanConfig).R) ∧
    ((∀ t ∈ kalmanTrace ⟨0, 1/2, 1/20⟩ ⟨0, 1⟩ [1/25, 3/25], 0 ≤ t.P) ∧
      ((⟨0, 1/2, 1/20⟩ : KalmanConfig).Q = 0 →
        (kalmanTrace ⟨0, 1/2, 1/20⟩ ⟨0, 1⟩ [1/25, 3/25]).Chain'
          (fun a b => b.P ≤ a.P))) :=
  ⟨⟨by norm_num, by norm_num, by norm_num⟩,
   covariance_invariant ⟨0, 1/2, 1/20⟩ ⟨0, 1⟩ [1/25, 3/25]
     (by norm_num) (by norm_num) (by norm_num)⟩

/-- C9 (implicit): with `P_pred = P + Q > 0` and `R > 0`, the Kalman
gain lies strictly in `(0,1)`, the corrected estimate lies strictly
between the prediction `x + wearRate` and the measurement whenever they
differ, and the corrected covariance is strictly below `P_pred`. -/
theorem kalman_gain_contraction (cfg : KalmanConfig) (s : KalmanState)
    (m : ℚ) (hPpred : 0 < s.P + cfg.Q) (hR : 0 < cfg.R) :
    (0 < kalmanGain cfg s ∧ kalmanGain cfg s < 1) ∧
    (s.x + cfg.wearRate < m →
      s.x + cfg.wearRate < (kalmanUpdate cfg s m).x ∧
        (kalmanUpdate cfg s m).x < m) ∧
    (m < s.x + cfg.wearRate →
      m < (kalmanUpdate cfg s m).x ∧
        (kalmanUpdate cfg s m).x < s.x + cfg.wearRate) ∧
    (kalmanUpdate cfg s m).P < s.P + cfg.Q := by
  have hsum : 0 < s.P + cfg.Q + cfg.R := by linarith
  have hK0 : 0 < (s.P + cfg.Q) / (s.P + cfg.Q + cfg.R) :=
    div_pos hPpred hsum
  have hK1 : (s.P + cfg.Q) / (s.P + cfg.Q + cfg.R) < 1 :=
    (div_lt_one hsum).mpr (by linarith)
  refine ⟨⟨by rw [kalmanGain]; exact hK0, by rw [kalmanGain]; exact hK1⟩,
    ?_, ?_, ?_⟩
  · intro hm
    constructor
    · show s.x + cfg.wearRate <
        s.x + cfg.wearRate + (s.P + cfg.Q) / (s.P + cfg.Q + cfg.R) *
          (m - (s.x + cfg.wearRate))
      nlinarith [mul_pos hK0 (sub_pos.mpr hm)]
    · show s.x + cfg.wearRate + (s.P + cfg.Q) / (s.P + cfg.Q + cfg.R) *
        (m - (s.x + cfg.wearRate)) < m
      nlinarith [mul_lt_mul_of_pos_right hK1 (sub_pos.mpr hm)]
  · intro hm
    constructor
    · show m < s.x + cfg.wearRate + (s.P + cfg.Q) / (s.P + cfg.Q + cfg.R) *
        (m - (s.x + cfg.wearRate))
      nlinarith [mul_lt_mul_of_pos_left hK1 (sub_pos.mpr hm)]
    · show s.x + cfg.wearRate + (s.P + cfg.Q) / (s.P + cfg.Q + cfg.R) *
        (m - (s.x + cfg.wearRate)) < s.x + cfg.wearRate
      nlinarith [mul_pos hK0 (sub_pos.mpr hm)]
  · show (1 - (s.P + cfg.Q) / (s.P + cfg.Q + cfg.R)) * (s.P + cfg.Q) <
      s.P + cfg.Q
    nlinarith [mul_pos hK0 hPpred]

/-- Witness for C9 at the program's configuration and measurement 0.04
(prediction 0.05 exceeds the measurement). -/
theorem kalman_gain_contraction_witness :
    ((0 : ℚ) < scenarioInit.P + scenarioConfig.Q ∧
      (0 : ℚ) < scenarioConfig.R) ∧
    ((0 < kalmanGain scenarioConfig scenarioInit ∧
       kalmanGain scenarioConfig scenarioInit < 1) ∧
     (scenarioInit.x + scenarioConfig.wearRate < 1/25 →
       scenarioInit.x + scenarioConfig.wearRate <
           (kalmanUpdate scenarioConfig scenarioInit (1/25)).x ∧
         (kalmanUpdate scenarioConfig scenarioInit (1/25)).x < 1/25) ∧
     ((1 : ℚ)/25 < scenarioInit.x + scenarioConfig.wearRate →
       1/25 < (kalmanUpdate scenarioConfig scenarioInit (1/25)).x ∧
         (kalmanUpdate scenarioConfig scenarioInit (1/25)).x <
           scenarioInit.x + scenarioConfig.wearRate) ∧
     (kalmanUpdate scenarioConfig scenarioInit (1/25)).P <
       scenarioInit.P + scenarioConfig.Q) :=
  ⟨⟨by norm_num [scenarioInit, scenarioConfig],
    by norm_num [scenarioConfig]⟩,
   kalman_gain_contraction scenarioConfig scenarioInit (1/25)
     (by norm_num [scenarioInit, scenarioConfig])
     (by norm_num [scenarioConfig])⟩

/-- C10 (implicit): for every position ≥ 1, every lap and every variance
in `[-0.5, 0.5]`, `estimatePositionLoss` reports at least one position
lost and a new position at least one worse than the current one, with
no cap at 20 — a car in P20 is reported at P21 or worse. -/
theorem position_loss_floor (currentPosition lap : ℕ) (v : ℚ)
    (hpos : 1 ≤ currentPosition) (hv1 : -(1/2) ≤ v) (hv2 : v ≤ 1/2) :
    1 ≤ (estimatePositionLoss currentPosition lap 300 v).positionsLost ∧
    (currentPosition : ℤ) + 1 ≤
      (estimatePositionLoss currentPosition lap 300 v).newPosition ∧
    (currentPosition = 20 →
      21 ≤ (estimatePositionLoss currentPosition lap 300 v).newPosition) := by
  have h1 : (1 : ℚ) ≤ positionsLostQ currentPosition lap 300 v :=
    le_max_left _ _
  have h2 : 1 ≤ jsRound (positionsLostQ currentPosition lap 300 v) := by
    have h := jsRound_mono h1
    rwa [jsRound_one] at h
  refine ⟨h2, ?_, ?_⟩
  · show (currentPosition : ℤ) + 1 ≤ (currentPosition : ℤ) +
      jsRound (positionsLostQ currentPosition lap 300 v)
    omega
  · intro h20
    subst h20
    show (21 : ℤ) ≤ (20 : ℕ) +
      jsRound (positionsLostQ 20 lap 300 v)
    omega

/-- Witness for C10 at P20, lap 10, variance +0.5. -/
theorem position_loss_floor_witness :
    (1 ≤ 20 ∧ -(1/2 : ℚ) ≤ 1/2 ∧ (1/2 : ℚ) ≤ 1/2) ∧
    (1 ≤ (estimatePositionLoss 20 10 300 (1/2)).positionsLost ∧
      ((20 : ℕ) : ℤ) + 1 ≤ (estimatePositionLoss 20 10 300 (1/2)).newPosition ∧
      (20 = 20 → 21 ≤ (estimatePositionLoss 20 10 300 (1/2)).newPosition)) :=
  ⟨⟨by norm_num, by norm_num, by norm_num⟩,
   position_loss_floor 20 10 (1/2) (by norm_num) (by norm_num) (by norm_num)⟩

set_option maxHeartbeats 1000000 in
lemma tire_max_eq (i : StrategyInput) (hc0 : 0 ≤ i.cliffProb)
    (hc1 : i.cliffProb ≤ 1) :
    tireUrgency i = maxOfRules (tireRuleValues i) := by
  have hj0 : 0 ≤ jsRound (i.cliffProb * 5) := le_jsRound (by push_cast; nlinarith)
  have hj5 : jsRound (i.cliffProb * 5) ≤ 5 := jsRound_le (by push_cast; nlinarith)
  rw [tireUrgency, tireRuleValues, maxOfRules, tireAgeScore]
  split_ifs <;>
    first
      | (simp only [List.foldl_cons, List.foldl_nil, List.cons_append,
          List.nil_append]; omega)
      | (exfalso; linarith)

lemma fuel_max_eq (i : StrategyInput) :
    fuelUrgency i = maxOfRules (fuelRuleValues i) := by
  rw [fuelUrgency, fuelRuleValues, maxOfRules]
  split_ifs <;>
    (simp only [List.foldl_cons, List.foldl_nil, List.cons_append,
      List.nil_append]; omega)

lemma strategy_max_eq (i : StrategyInput) :
    strategyUrgency i = maxOfRules (strategyRuleValues i) := by
  rw [strategyUrgency, strategyRuleValues, maxOfRules]
  split_ifs <;>
    first
      | (simp only [List.foldl_cons, List.foldl_nil, List.cons_append,
          List.nil_append]; omega)
      | tauto

lemma tireAgeScore_bounds (i : StrategyInput) (hc0 : 0 ≤ i.cliffProb)
    (hc1 : i.cliffProb ≤ 1) :
    0 ≤ tireAgeScore i ∧ tireAgeScore i ≤ 10 := by
  have hj0 : 0 ≤ jsRound (i.cliffProb * 5) := le_jsRound (by push_cast; nlinarith)
  have hj5 : jsRound (i.cliffProb * 5) ≤ 5 := jsRound_le (by push_cast; nlinarith)
  rw [tireAgeScore]
  split_ifs <;> omega

lemma tireUrgency_bounds (i : StrategyInput) (hc0 : 0 ≤ i.cliffProb)
    (hc1 : i.cliffProb ≤ 1) :
    0 ≤ tireUrgency i ∧ tireUrgency i ≤ 10 := by
  obtain ⟨h0, h10⟩ := tireAgeScore_bounds i hc0 hc1
  rw [tireUrgency]
  split_ifs <;> omega

lemma fuelUrgency_bounds (i : StrategyInput) :
    1 ≤ fuelUrgency i ∧ fuelUrgency i ≤ 10 := by
  rw [fuelUrgency]
  split_ifs <;> omega

lemma strategyUrgency_bounds (i : StrategyInput) :
    1 ≤ strategyUrgency i ∧ strategyUrgency i ≤ 6 := by
  rw [strategyUrgency]
  split_ifs <;> omega

lemma totalUrgency_bounds (i : StrategyInput) (hc0 : 0 ≤ i.cliffProb)
    (hc1 : i.cliffProb ≤ 1) :
    0 ≤ totalUrgency i ∧ totalUrgency i ≤ 10 := by
  obtain ⟨ht0, ht10⟩ := tireUrgency_bounds i hc0 hc1
  obtain ⟨hf1, hf10⟩ := fuelUrgency_bounds i
  obtain ⟨hs1, hs6⟩ := strategyUrgency_bounds i
  have c1 : (0 : ℚ) ≤ (tireUrgency i : ℚ) := by exact_mod_cast ht0
  have c2 : (tireUrgency i : ℚ) ≤ 10 := by exact_mod_cast ht10
  have c3 : (1 : ℚ) ≤ (fuelUrgency i : ℚ) := by exact_mod_cast hf1
  have c4 : (fuelUrgency i : ℚ) ≤ 10 := by exact_mod_cast hf10
  have c5 : (1 : ℚ) ≤ (strategyUrgency i : ℚ) := by exact_mod_cast hs1
  have c6 : (strategyUrgency i : ℚ) ≤ 6 := by exact_mod_cast hs6
  rw [totalUrgency]
  constructor
  · apply le_jsRound
    push_cast
    rw [le_div_iff (by norm_num : (0:ℚ) < 7/2)]
    linarith
  · apply jsRound_le
    push_cast
    rw [div_lt_iff (by norm_num : (0:ℚ) < 7/2)]
    linarith

/-- C6: for every scorer input with `cliffProb ∈ [0,1]` and positive
fuel-per-lap, each of the three sub-scores of `analyzePitStrategy`
equals the MAX over its triggering rules (never a sum), and
`totalUrgency = round((tireUrgency*1.5 + fuelUrgency +
strategyUrgency)/3.5)` lies in `[0,10]`. -/
theorem urgency_score_spec (i : StrategyInput) (hc0 : 0 ≤ i.cliffProb)
    (hc1 : i.cliffProb ≤ 1) (hf : 0 < i.fuelPerLap) :
    tireUrgency i = maxOfRules (tireRuleValues i) ∧
    fuelUrgency i = maxOfRules (fuelRuleValues i) ∧
    strategyUrgency i = maxOfRules (strategyRuleValues i) ∧
    totalUrgency i =
      jsRound (((tireUrgency i : ℚ) * (3/2) + (fuelUrgency i : ℚ) +
        (strategyUrgency i : ℚ)) / (7/2)) ∧
    0 ≤ totalUrgency i ∧ totalUrgency i ≤ 10 :=
  ⟨tire_max_eq i hc0 hc1, fuel_max_eq i, strategy_max_eq i, rfl,
   (totalUrgency_bounds i hc0 hc1).1, (totalUrgency_bounds i hc0 hc1).2⟩

/-- Concrete scorer input for the C6 witness: P5, cliff probability
0.30, fuel for 40 laps, dry weather, tires 24 laps old of 25. -/
def witnessInput : StrategyInput :=
  { lap := 10, currentPosition := 5, gapToLeader := 2, cliffProb := 3/10
    fuel := 50, fuelPerLap := 5/4, weather := .DRY, lapsSincePit := 8
    tireAge := 24, maxTireAge := 25 }

/-- Witness for C6 at `witnessInput`. -/
theorem urgency_score_spec_witness :
    (0 ≤ witnessInput.cliffProb ∧ witnessInput.cliffProb ≤ 1 ∧
      0 < witnessInput.fuelPerLap) ∧
    (tireUrgency witnessInput = maxOfRules (tireRuleValues witnessInput) ∧
     fuelUrgency witnessInput = maxOfRules (fuelRuleValues witnessInput) ∧
     strategyUrgency witnessInput =
       maxOfRules (strategyRuleValues witnessInput) ∧
     totalUrgency witnessInput =
       jsRound (((tireUrgency witnessInput : ℚ) * (3/2) +
         (fuelUrgency witnessInput : ℚ) +
         (strategyUrgency witnessInput : ℚ)) / (7/2)) ∧
     0 ≤ totalUrgency witnessInput ∧ totalUrgency witnessInput ≤ 10) :=
  ⟨⟨by norm_num [witnessInput], by norm_num [witnessInput],
    by norm_num [witnessInput]⟩,
   urgency_score_spec witnessInput (by norm_num [witnessInput])
     (by norm_num [witnessInput]) (by norm_num [witnessInput])⟩
